import Mathlib

/-!
Verification development for the dynamic SQL query builder in
`orm/sql/operations.go` of the barqy-orm repository.

The Go builder is shallowly embedded:
  * Go `interface{}` values are modelled by `GoVal` (nil, a primitive
    scalar, or a `[]interface{}` slice of scalars — the only slice shape
    the builder's operators consume).
  * Go maps that the builder iterates (`map[string]interface{}` condition
    groups and `map[string]string` operator groups) are modelled as
    association lists iterated in list order; Go's map iteration order is
    unspecified, and every property proved here holds per iteration order.
  * Go's run-time type assertion `value.([]interface{})` panics on a
    non-slice value; `build` therefore returns an `Option`, with `none`
    standing for that panic.
  * Database execution (`GetOrCreate`'s SELECT round trip) is abstracted:
    the result set handed back by the driver is a `DBResult` input.
-/

namespace BarqyOrm

/-- A primitive (non-nil, non-slice) Go value as used by the builder. -/
inductive Scalar where
  | s (v : String)
  | i (v : Int)
deriving DecidableEq, Repr

/-- A Go `interface{}` value as consumed by the query builder: `nil`, a
primitive scalar, or a `[]interface{}` slice (of scalars). -/
inductive GoVal where
  | vnil
  | prim (p : Scalar)
  | slice (xs : List Scalar)
deriving DecidableEq, Repr

/-- One `map[string]interface{}` condition group, as an association list. -/
abbrev Cond := List (String × GoVal)

/-- One `map[string]string` operator group, as an association list. -/
abbrev OpMap := List (String × String)

/-- An element of the Go `[]interface{}` handed to `OrderBy`: a raw string,
a field-to-direction map, or a value of any other type (which the `switch`
in `Build` silently skips). -/
inductive OrderField where
  | str (v : String)
  | fmap (m : List (String × String))
  | other
deriving DecidableEq, Repr

/-- Operator constants from `operations.go`. -/
def OperatorEqual : String := "="

def OperatorGreater : String := ">"

def OperatorLessThan : String := "<"

def OperatorIn : String := "IN"

def OperatorBetween : String := "BETWEEN"

def OperatorLike : String := "LIKE"

def OperatorNotIn : String := "NOT IN"

def OperatorNotLike : String := "NOT LIKE"

/-- The `QueryBuilder` struct. The `Model` field (used only by the
reflection-based column default of `Select`) is outside the embedding. -/
structure QueryBuilder where
  Table : String
  Columns : List String
  WhereConditions : List Cond
  WhereOperators : List OpMap
  OrderByFields : List OrderField
  LimitCount : Int
  CursorField : String
  CursorValue : GoVal
  Parameters : List GoVal
deriving DecidableEq, Repr

/-- Constructor `NewQueryBuilder` initializes a new query builder. -/
def NewQueryBuilder (table : String) : QueryBuilder :=
  { Table := table
    Columns := []
    WhereConditions := []
    WhereOperators := []
    OrderByFields := []
    LimitCount := 0
    CursorField := ""
    CursorValue := .vnil
    Parameters := [] }

/-- Method `Select` with explicit columns (`len(columns) > 0` sets them; with no
columns the Go code falls back to reflection over `Model`, which is outside
the embedding and leaves `Columns` unchanged here). -/
def QueryBuilder.Select (qb : QueryBuilder) (columns : List String) : QueryBuilder :=
  if columns.length > 0 then { qb with Columns := columns } else qb

/-- Method `Where` replaces the condition and operator groups. -/
def QueryBuilder.Where (qb : QueryBuilder) (conditions : List Cond)
    (operators : List OpMap) : QueryBuilder :=
  { qb with WhereConditions := conditions, WhereOperators := operators }

/-- Method `OrderBy` replaces the ordering fields. -/
def QueryBuilder.OrderBy (qb : QueryBuilder) (fields : List OrderField) : QueryBuilder :=
  { qb with OrderByFields := fields }

/-- Method `Limit` replaces the limit. -/
def QueryBuilder.Limit (qb : QueryBuilder) (limit : Int) : QueryBuilder :=
  { qb with LimitCount := limit }

/-- Method `Cursor` sets the cursor field and value. -/
def QueryBuilder.Cursor (qb : QueryBuilder) (field : String) (value : GoVal) : QueryBuilder :=
  { qb with CursorField := field, CursorValue := value }

/-- Go's `strings.Join`. -/
def joinStrings (sep : String) : List String → String
  | [] => ""
  | [x] => x
  | x :: y :: xs => x ++ sep ++ joinStrings sep (y :: xs)

/-- Lookup in a `map[string]string` modelled as an association list:
`op, ok := m[field]`. -/
def lookupOp (m : OpMap) (field : String) : Option String :=
  match m with
  | [] => none
  | (k, v) :: rest => if k = field then some v else lookupOp rest field

/-- The operator resolution in `Build`: `operator := OperatorEqual`
overridden by the group's entry for the field when present. -/
def resolvedOp (opsMap : OpMap) (field : String) : String :=
  (lookupOp opsMap field).getD OperatorEqual

/-- The `switch` inside `Build` that renders one condition entry whose value
is not nil: produces the clause text and the parameters appended for it.
`none` models the Go panic of `value.([]interface{})` on a non-slice value. -/
def renderClause (field : String) (value : GoVal) (operator : String) :
    Option (String × List GoVal) :=
  if operator = OperatorIn then
    match value with
    | GoVal.slice vals =>
        some (field ++ " " ++ OperatorIn ++ " (" ++
                joinStrings ", " (vals.map fun _ => "?") ++ ")",
              vals.map GoVal.prim)
    | _ => none
  else if operator = OperatorNotIn then
    match value with
    | GoVal.slice vals =>
        some (field ++ " " ++ OperatorNotIn ++ " (" ++
                joinStrings ", " (vals.map fun _ => "?") ++ ")",
              vals.map GoVal.prim)
    | _ => none
  else if operator = OperatorBetween then
    match value with
    | GoVal.slice vals =>
        some (field ++ " " ++ OperatorBetween ++ " ? AND ?", vals.map GoVal.prim)
    | _ => none
  else if operator = OperatorLike then
    some (field ++ " " ++ OperatorLike ++ " ?", [value])
  else
    some (field ++ " " ++ operator ++ " ?", [value])

/-- The inner `for field, value := range condition` loop of `Build` for one
condition group: nil-valued entries are skipped, the operator for a field is
looked up in `opsMap` (defaulting to `=`), and each rendered clause is paired
with the parameters appended for it. -/
def processCondition (opsMap : OpMap) : Cond → Option (List (String × List GoVal))
  | [] => some []
  | (field, value) :: rest =>
      if value = GoVal.vnil then
        processCondition opsMap rest
      else
        match renderClause field value (resolvedOp opsMap field) with
        | none => none
        | some c =>
            match processCondition opsMap rest with
            | none => none
            | some cs => some (c :: cs)

/-- The outer `for i, condition := range qb.WhereConditions` loop of `Build`:
condition group `i` uses operator group `i` when `len(qb.WhereOperators) > i`,
and the default `=` otherwise (an absent group behaves like an empty map). -/
def processConditions : List Cond → List OpMap → Option (List (String × List GoVal))
  | [], _ => some []
  | c :: cs, ops =>
      match processCondition (ops.headD []) c with
      | none => none
      | some r1 =>
          match processConditions cs ops.tail with
          | none => none
          | some r2 => some (r1 ++ r2)

/-- The prefix segment `fmt.Sprintf("SELECT %s FROM %s ", strings.Join(qb.Columns, ", "), qb.Table)`. -/
def selectText (qb : QueryBuilder) : String :=
  "SELECT " ++ joinStrings ", " qb.Columns ++ " FROM " ++ qb.Table ++ " "

/-- The WHERE segment appended by `Build`: emitted whenever the condition
list is non-empty, even if every clause was dropped. -/
def whereText (qb : QueryBuilder) (clauses : List (String × List GoVal)) : String :=
  if qb.WhereConditions.length > 0 then
    "WHERE " ++ joinStrings " AND " (clauses.map Prod.fst)
  else ""

/-- The parameters appended during the WHERE loop, in clause order. -/
def whereParams (clauses : List (String × List GoVal)) : List GoVal :=
  (clauses.map Prod.snd).flatten

/-- One entry of `orderByClauses`: a string passes through, a map renders its
entries as `field direction`, any other value contributes nothing. -/
def renderOrderField : OrderField → List String
  | .str v => [v]
  | .fmap m => m.map fun e => e.1 ++ " " ++ e.2
  | .other => []

/-- The ORDER BY segment appended by `Build`. -/
def orderText (qb : QueryBuilder) : String :=
  if qb.OrderByFields.length > 0 then
    " ORDER BY " ++ joinStrings ", " (qb.OrderByFields.map renderOrderField).flatten
  else ""

/-- The guard `qb.CursorField != "" && qb.CursorValue != nil`. -/
def emitCursor (qb : QueryBuilder) : Bool :=
  decide (qb.CursorField ≠ "") && decide (qb.CursorValue ≠ GoVal.vnil)

/-- The cursor segment `fmt.Sprintf(" AND %s > ? ", qb.CursorField)`,
appended after the ORDER BY segment when the guard holds. -/
def cursorText (qb : QueryBuilder) : String :=
  if emitCursor qb then " AND " ++ qb.CursorField ++ " > ? " else ""

/-- The parameter appended for the cursor predicate. -/
def cursorParams (qb : QueryBuilder) : List GoVal :=
  if emitCursor qb then [qb.CursorValue] else []

/-- The LIMIT segment, emitted only for a positive limit. -/
def limitText (qb : QueryBuilder) : String :=
  if qb.LimitCount > 0 then " LIMIT " ++ toString qb.LimitCount else ""

/-- Method `Build` constructs the final SQL query string. The Go function appends
each segment to `query` in this order (SELECT, WHERE, ORDER BY, cursor,
LIMIT), appends the WHERE-loop and cursor parameters to the persistent
`qb.Parameters` slice, and returns the text with that slice. `none` models
the panic of a failed `value.([]interface{})` assertion in the WHERE loop. -/
def QueryBuilder.Build (qb : QueryBuilder) : Option (String × List GoVal × QueryBuilder) :=
  match processConditions qb.WhereConditions qb.WhereOperators with
  | none => none
  | some clauses =>
      let ps := qb.Parameters ++ whereParams clauses ++ cursorParams qb
      some (selectText qb ++ whereText qb clauses ++ orderText qb ++
              cursorText qb ++ limitText qb,
            ps, { qb with Parameters := ps })

/-- Number of `?` placeholders in a piece of SQL text. -/
def countQ (s : String) : Nat :=
  s.data.count '?'

/-- The result set handed back by the driver for a SELECT: the column names
reported by `rows.Columns()` and the scanned rows in iteration order. -/
structure DBResult where
  columns : List String
  rows : List (List GoVal)
deriving DecidableEq, Repr

/-- Outcome of `GetOrCreate`: `found` is the early return of the first
existing row (no INSERT statement is executed on that path); `created`
records the returned map together with the INSERT statement and parameters
that were executed. -/
inductive GetOrCreateResult where
  | found (row : List (String × GoVal))
  | created (returned : List (String × GoVal)) (insertQuery : String)
      (insertParams : List GoVal)
deriving DecidableEq, Repr

/-- The row materialization loop `result[column] = columnsData[i]`: one map
entry per reported column, in column order. -/
def rowToMap (columns : List String) (row : List GoVal) : List (String × GoVal) :=
  columns.zip row

/-- Method `BuildInsertQuery` creates an SQL insert query from the provided data
map: one loop collects columns, `?` placeholders and values in map
iteration order. -/
def QueryBuilder.BuildInsertQuery (qb : QueryBuilder) (data : List (String × GoVal)) :
    String × List GoVal :=
  ("INSERT INTO " ++ qb.Table ++ " (" ++ joinStrings ", " (data.map Prod.fst) ++
     ") VALUES (" ++ joinStrings ", " (data.map fun _ => "?") ++ ")",
   data.map Prod.snd)

/-- Method `GetOrCreate` with the SELECT round trip abstracted: `res` is the result
set returned for the builder's SELECT. If `rows.Next()` yields a row, that
row is scanned into a map and returned (no INSERT); otherwise the INSERT
built from `createData` is executed and `createData` itself is returned. -/
def QueryBuilder.GetOrCreate (qb : QueryBuilder) (res : DBResult)
    (createData : List (String × GoVal)) : GetOrCreateResult :=
  match res.rows with
  | r :: _ => .found (rowToMap res.columns r)
  | [] =>
      let iq := qb.BuildInsertQuery createData
      .created createData iq.1 iq.2

/-- Well-formedness of one condition entry for the placeholder/parameter
alignment property: the entry is dropped (nil value), or its field text
carries no stray `?` and its value fits the resolved operator (a slice for
`IN`/`NOT IN`, a slice of exactly two elements for `BETWEEN`, and for the
default branch an operator string with no stray `?`). -/
def entryWF (opsMap : OpMap) (e : String × GoVal) : Bool :=
  decide (e.2 = GoVal.vnil) ||
    (decide (countQ e.1 = 0) &&
      (if resolvedOp opsMap e.1 = OperatorIn ∨ resolvedOp opsMap e.1 = OperatorNotIn then
         match e.2 with
         | GoVal.slice _ => true
         | _ => false
       else if resolvedOp opsMap e.1 = OperatorBetween then
         match e.2 with
         | GoVal.slice xs => decide (xs.length = 2)
         | _ => false
       else if resolvedOp opsMap e.1 = OperatorLike then true
       else decide (countQ (resolvedOp opsMap e.1) = 0)))

/-- Conjunction of `entryWF` over one condition group. -/
def condWF (opsMap : OpMap) : Cond → Bool
  | [] => true
  | e :: rest => entryWF opsMap e && condWF opsMap rest

/-- Conjunction of `condWF` over all condition groups, pairing group `i` with operator
group `i` exactly as `processConditions` does. -/
def condsWF : List Cond → List OpMap → Bool
  | [], _ => true
  | c :: cs, ops => condWF (ops.headD []) c && condsWF cs ops.tail

theorem countQ_append (a b : String) : countQ (a ++ b) = countQ a + countQ b := by
  simp [countQ, String.data_append, List.count_append]

theorem countQ_joinStrings (sep : String) (hsep : countQ sep = 0) (l : List String) :
    countQ (joinStrings sep l) = (l.map countQ).sum := by
  induction l with
  | nil => simp [joinStrings, countQ]
  | cons x xs ih =>
      cases xs with
      | nil => simp [joinStrings]
      | cons y ys =>
          simp only [joinStrings, List.map_cons, List.sum_cons] at ih ⊢
          rw [countQ_append, countQ_append, hsep, ih]
          omega

theorem countQ_placeholderList (xs : List Scalar) :
    countQ (joinStrings ", " (xs.map fun _ => "?")) = xs.length := by
  rw [countQ_joinStrings ", " (by decide)]
  have hq : countQ "?" = 1 := by decide
  induction xs with
  | nil => simp
  | cons x t ih =>
      simp only [List.map_cons, List.sum_cons, List.length_cons, ih, hq]
      omega

theorem countQ_placeholderRep (n : Nat) :
    countQ (joinStrings ", " (List.replicate n "?")) = n := by
  rw [countQ_joinStrings ", " (by decide)]
  have hq : countQ "?" = 1 := by decide
  induction n with
  | zero => simp
  | succ k ih =>
      simp [List.replicate_succ, ih, hq]
      omega

theorem entryWF_aligned (opsMap : OpMap) (f : String) (v : GoVal)
    (hv : ¬ v = GoVal.vnil) (hwf : entryWF opsMap (f, v) = true) :
    ∃ c, renderClause f v (resolvedOp opsMap f) = some c ∧
      countQ c.1 = c.2.length := by
  have hA : countQ " " = 0 := by decide
  have hB : countQ "IN" = 0 := by decide
  have hC : countQ "NOT IN" = 0 := by decide
  have hD : countQ " (" = 0 := by decide
  have hE : countQ ")" = 0 := by decide
  have hF : countQ "BETWEEN" = 0 := by decide
  have hG : countQ " ? AND ?" = 2 := by decide
  have hH : countQ "LIKE" = 0 := by decide
  have hI : countQ " ?" = 1 := by decide
  simp only [entryWF, Bool.or_eq_true, Bool.and_eq_true, decide_eq_true_eq] at hwf
  rcases hwf with hnil | ⟨hf, hbr⟩
  · exact absurd hnil hv
  by_cases hIn : resolvedOp opsMap f = OperatorIn
  · rw [if_pos (Or.inl hIn)] at hbr
    cases v with
    | vnil => exact absurd rfl hv
    | prim p => simp at hbr
    | slice xs =>
        refine ⟨(f ++ " " ++ OperatorIn ++ " (" ++
            joinStrings ", " (xs.map fun _ => "?") ++ ")", xs.map GoVal.prim),
          ?_, ?_⟩
        · simp [renderClause, hIn]
        · simp [countQ_append, hf, hA, hB, hD, hE, OperatorIn,
            countQ_placeholderList, countQ_placeholderRep]
  · by_cases hNIn : resolvedOp opsMap f = OperatorNotIn
    · rw [if_pos (Or.inr hNIn)] at hbr
      cases v with
      | vnil => exact absurd rfl hv
      | prim p => simp at hbr
      | slice xs =>
          refine ⟨(f ++ " " ++ OperatorNotIn ++ " (" ++
              joinStrings ", " (xs.map fun _ => "?") ++ ")", xs.map GoVal.prim),
            ?_, ?_⟩
          · simp [renderClause, hNIn, OperatorNotIn, OperatorIn]
          · simp [countQ_append, hf, hA, hC, hD, hE, OperatorNotIn,
              countQ_placeholderList, countQ_placeholderRep]
    · rw [if_neg (by tauto)] at hbr
      by_cases hBt : resolvedOp opsMap f = OperatorBetween
      · rw [if_pos hBt] at hbr
        cases v with
        | vnil => exact absurd rfl hv
        | prim p => simp at hbr
        | slice xs =>
            simp only [decide_eq_true_eq] at hbr
            refine ⟨(f ++ " " ++ OperatorBetween ++ " ? AND ?", xs.map GoVal.prim),
              ?_, ?_⟩
            · simp [renderClause, hBt, OperatorBetween, OperatorIn, OperatorNotIn]
            · simp [countQ_append, hf, hA, hF, hG, OperatorBetween, hbr]
      · rw [if_neg hBt] at hbr
        by_cases hLk : resolvedOp opsMap f = OperatorLike
        · refine ⟨(f ++ " " ++ OperatorLike ++ " ?", [v]), ?_, ?_⟩
          · simp [renderClause, hLk, OperatorLike, OperatorIn, OperatorNotIn,
              OperatorBetween]
          · simp [countQ_append, hf, hA, hH, hI, OperatorLike]
        · rw [if_neg hLk] at hbr
          simp only [decide_eq_true_eq] at hbr
          refine ⟨(f ++ " " ++ resolvedOp opsMap f ++ " ?", [v]), ?_, ?_⟩
          · simp [renderClause, hIn, hNIn, hBt, hLk]
          · simp [countQ_append, hf, hA, hI, hbr]

theorem processCondition_aligned (opsMap : OpMap) :
    ∀ c : Cond, condWF opsMap c = true →
      ∃ clauses, processCondition opsMap c = some clauses ∧
        ∀ x ∈ clauses, countQ x.1 = x.2.length
  | [], _ => ⟨[], rfl, by simp⟩
  | (f, v) :: rest, hwf => by
      simp only [condWF, Bool.and_eq_true] at hwf
      obtain ⟨he, hrest⟩ := hwf
      obtain ⟨cls, hcls, hal⟩ := processCondition_aligned opsMap rest hrest
      by_cases hv : v = GoVal.vnil
      · exact ⟨cls, by simp [processCondition, hv, hcls], hal⟩
      · obtain ⟨cl, hrender, hcnt⟩ := entryWF_aligned opsMap f v hv he
        refine ⟨cl :: cls, by simp [processCondition, hv, hrender, hcls], ?_⟩
        intro x hx
        rcases List.mem_cons.mp hx with h | h
        · exact h ▸ hcnt
        · exact hal x h

theorem processConditions_aligned :
    ∀ (conds : List Cond) (ops : List OpMap), condsWF conds ops = true →
      ∃ clauses, processConditions conds ops = some clauses ∧
        ∀ x ∈ clauses, countQ x.1 = x.2.length
  | [], _, _ => ⟨[], rfl, by simp⟩
  | c :: cs, ops, hwf => by
      simp only [condsWF, Bool.and_eq_true] at hwf
      obtain ⟨hc, hcs⟩ := hwf
      obtain ⟨cl1, h1, ha1⟩ := processCondition_aligned (ops.headD []) c hc
      obtain ⟨cl2, h2, ha2⟩ := processConditions_aligned cs ops.tail hcs
      refine ⟨cl1 ++ cl2, by simp only [processConditions, h1, h2], ?_⟩
      intro x hx
      rcases List.mem_append.mp hx with h | h
      · exact ha1 x h
      · exact ha2 x h

theorem whereParams_length_of_aligned (clauses : List (String × List GoVal))
    (h : ∀ x ∈ clauses, countQ x.1 = x.2.length) :
    countQ (joinStrings " AND " (clauses.map Prod.fst)) =
      (whereParams clauses).length := by
  rw [countQ_joinStrings " AND " (by decide)]
  unfold whereParams
  induction clauses with
  | nil => simp
  | cons c cs ih =>
      simp only [List.map_cons, List.sum_cons, List.flatten_cons,
        List.length_append]
      rw [h c (by simp), ih (fun x hx => h x (by simp [hx]))]

/-- Evaluation of `Build` on a builder whose WHERE loop succeeds, written out segment by
segment. -/
theorem build_eq (qb : QueryBuilder) (clauses : List (String × List GoVal))
    (h : processConditions qb.WhereConditions qb.WhereOperators = some clauses) :
    qb.Build = some (selectText qb ++ whereText qb clauses ++ orderText qb ++
        cursorText qb ++ limitText qb,
      qb.Parameters ++ whereParams clauses ++ cursorParams qb,
      { qb with Parameters :=
          qb.Parameters ++ whereParams clauses ++ cursorParams qb }) := by
  unfold QueryBuilder.Build
  rw [h]

/-- Evaluation of `Build` on a builder whose WHERE loop panics. -/
theorem build_none (qb : QueryBuilder)
    (h : processConditions qb.WhereConditions qb.WhereOperators = none) :
    qb.Build = none := by
  unfold QueryBuilder.Build
  rw [h]

theorem string_append_empty (s : String) : s ++ "" = s := by
  apply String.ext
  simp [String.data_append]

/-- The builder of the spec's worked example. -/
def exampleQB : QueryBuilder :=
  ((((NewQueryBuilder "users").Select ["id", "name"]).Where
      [[("status", GoVal.prim (Scalar.s "active"))]] [[]]).OrderBy
      [OrderField.str "id ASC"]).Limit 10

/-- A builder whose single condition is `age BETWEEN v` for a given value
list, as in `where([{age: vals}], [{age: "BETWEEN"}])`. -/
def betweenQB (xs : List Scalar) : QueryBuilder :=
  ((NewQueryBuilder "t").Select ["a"]).Where
    [[("age", GoVal.slice xs)]] [[("age", "BETWEEN")]]

/-- A builder whose single condition is `age IN vals`. -/
def inQB (xs : List Scalar) : QueryBuilder :=
  ((NewQueryBuilder "t").Select ["a"]).Where
    [[("age", GoVal.slice xs)]] [[("age", "IN")]]

/-- A builder whose single condition is `age NOT IN vals`. -/
def notInQB (xs : List Scalar) : QueryBuilder :=
  ((NewQueryBuilder "t").Select ["a"]).Where
    [[("age", GoVal.slice xs)]] [[("age", "NOT IN")]]

/-- A builder whose single condition uses the unrecognized operator `FOO`. -/
def fooOpQB : QueryBuilder :=
  ((NewQueryBuilder "t").Select ["a"]).Where
    [[("x", GoVal.prim (Scalar.i 1))]] [[("x", "FOO")]]

/-- The same builder with no operator override, so `=` is used. -/
def eqOpQB : QueryBuilder :=
  ((NewQueryBuilder "t").Select ["a"]).Where
    [[("x", GoVal.prim (Scalar.i 1))]] [[]]

/-- Claim C8: on table `users`, `Select("id","name")`,
`Where([{status: "active"}], [{}])`, `OrderBy("id ASC")` and `Limit(10)`
make `Build` return exactly
`SELECT id, name FROM users WHERE status = ? ORDER BY id ASC LIMIT 10`
with parameter list `["active"]`. -/
theorem C8_example_build :
    exampleQB.Build =
      some ("SELECT id, name FROM users WHERE status = ? ORDER BY id ASC LIMIT 10",
        [GoVal.prim (Scalar.s "active")],
        { exampleQB with Parameters := [GoVal.prim (Scalar.s "active")] }) := by
  decide

/-- Claim C5, counterexample: a `BETWEEN` condition with a three-element
value list is not rejected — `Build` succeeds and emits
`age BETWEEN ? AND ?` (two placeholders) while appending all three values,
so the placeholder/parameter count mismatch the claim rules out is in fact
produced. -/
theorem C5_counterexample :
    (betweenQB [Scalar.i 1, Scalar.i 2, Scalar.i 3]).Build =
      some ("SELECT a FROM t WHERE age BETWEEN ? AND ?",
        [GoVal.prim (Scalar.i 1), GoVal.prim (Scalar.i 2), GoVal.prim (Scalar.i 3)],
        { betweenQB [Scalar.i 1, Scalar.i 2, Scalar.i 3] with Parameters :=
            [GoVal.prim (Scalar.i 1), GoVal.prim (Scalar.i 2),
             GoVal.prim (Scalar.i 3)] }) ∧
    countQ "SELECT a FROM t WHERE age BETWEEN ? AND ?" = 2 ∧
    [GoVal.prim (Scalar.i 1), GoVal.prim (Scalar.i 2),
      GoVal.prim (Scalar.i 3)].length = 3 := by
  decide

/-- Claim C5 (amended): a `BETWEEN` condition whose value is a slice of any
length is accepted: `Build` always renders exactly two placeholders
(`field BETWEEN ? AND ?`) and appends every element of the slice as a
parameter, so a slice of length other than two silently yields a
placeholder/parameter mismatch rather than an error (only a non-slice value
aborts, via the type-assertion panic). -/
theorem C5_amended_between_not_validated (xs : List Scalar) :
    (betweenQB xs).Build =
      some ("SELECT a FROM t WHERE age BETWEEN ? AND ?", xs.map GoVal.prim,
        { betweenQB xs with Parameters := xs.map GoVal.prim }) := by
  have h : processConditions (betweenQB xs).WhereConditions
      (betweenQB xs).WhereOperators =
      some [("age BETWEEN ? AND ?", xs.map GoVal.prim)] := by
    simp [betweenQB, QueryBuilder.Where, QueryBuilder.Select, NewQueryBuilder,
      processConditions, processCondition, renderClause, resolvedOp, lookupOp,
      OperatorIn, OperatorNotIn, OperatorBetween, OperatorLike, OperatorEqual]
  rw [build_eq _ _ h]
  simp [betweenQB, QueryBuilder.Where, QueryBuilder.Select, NewQueryBuilder,
    selectText, whereText, orderText, cursorText, limitText, emitCursor,
    cursorParams, whereParams, joinStrings]

/-- Claim C6, counterexample: an `IN` condition with an empty value slice is
not rejected — `Build` succeeds and renders the syntactically empty
parenthesis list `age IN ()`. -/
theorem C6_counterexample :
    (inQB []).Build = some ("SELECT a FROM t WHERE age IN ()", [],
      { inQB [] with Parameters := [] }) := by
  decide

/-- Claim C6 (amended): an `IN` or `NOT IN` condition with an empty value
slice is accepted without error: `Build` renders `field IN ()` (resp.
`field NOT IN ()`) with zero parameters appended. -/
theorem C6_amended_empty_in_not_rejected :
    (inQB []).Build = some ("SELECT a FROM t WHERE age IN ()", [],
      { inQB [] with Parameters := [] }) ∧
    (notInQB []).Build = some ("SELECT a FROM t WHERE age NOT IN ()", [],
      { notInQB [] with Parameters := [] }) := by
  decide

/-- Claim C7, counterexample: with the unrecognized operator string `FOO`,
`Build` renders the fragment `x FOO ?`, which is not the fragment `x = ?`
that the equality case produces — the operator text is preserved, not
replaced by `=`. -/
theorem C7_counterexample :
    fooOpQB.Build = some ("SELECT a FROM t WHERE x FOO ?",
      [GoVal.prim (Scalar.i 1)],
      { fooOpQB with Parameters := [GoVal.prim (Scalar.i 1)] }) ∧
    eqOpQB.Build = some ("SELECT a FROM t WHERE x = ?",
      [GoVal.prim (Scalar.i 1)],
      { eqOpQB with Parameters := [GoVal.prim (Scalar.i 1)] }) ∧
    ("SELECT a FROM t WHERE x FOO ?" : String) ≠ "SELECT a FROM t WHERE x = ?" := by
  refine ⟨by decide, by decide, by decide⟩

/-- Claim C7 (amended): a condition whose operator is none of `IN`,
`NOT IN`, `BETWEEN`, `LIKE` is handled by the default branch of the switch:
the fragment is `field OP ?` with the literal operator text, and exactly one
parameter — the condition value — is appended, the same placeholder and
parameter handling as the `=` case but with the unrecognized operator text
kept in the fragment. -/
theorem C7_amended_default_branch (field : String) (v : GoVal) (op : String)
    (h : op ∉ [OperatorIn, OperatorNotIn, OperatorBetween, OperatorLike]) :
    renderClause field v op = some (field ++ " " ++ op ++ " ?", [v]) := by
  simp only [List.mem_cons, List.not_mem_nil, or_false, not_or] at h
  obtain ⟨h1, h2, h3, h4⟩ := h
  simp [renderClause, h1, h2, h3, h4]

/-- Witness for C7 at the concrete operator `FOO`. -/
theorem C7_amended_witness :
    (("FOO" : String) ∉ [OperatorIn, OperatorNotIn, OperatorBetween, OperatorLike]) ∧
    renderClause "x" (GoVal.prim (Scalar.i 1)) "FOO" =
      some ("x FOO ?", [GoVal.prim (Scalar.i 1)]) := by
  refine ⟨by decide, ?_⟩
  simpa using C7_amended_default_branch "x" (GoVal.prim (Scalar.i 1)) "FOO" (by decide)

/-- Claim C1, counterexample: on a fresh builder with the single condition
`age BETWEEN [18]`, the rendered WHERE clause contains two `?` placeholders
but only one parameter is appended, so the placeholder and parameter counts
disagree. -/
theorem C1_counterexample :
    (betweenQB [Scalar.i 18]).Build =
      some ("SELECT a FROM t WHERE age BETWEEN ? AND ?",
        [GoVal.prim (Scalar.i 18)],
        { betweenQB [Scalar.i 18] with Parameters := [GoVal.prim (Scalar.i 18)] }) ∧
    countQ "SELECT a FROM t WHERE age BETWEEN ? AND ?" = 2 ∧
    [GoVal.prim (Scalar.i 18)].length = 1 := by
  decide

/-- A builder with one WHERE condition, an ORDER BY, and a cursor. -/
def cursorOrderQB : QueryBuilder :=
  ((((NewQueryBuilder "t").Select ["a"]).Where
      [[("x", GoVal.prim (Scalar.i 1))]] []).OrderBy
      [OrderField.str "id ASC"]).Cursor "id" (GoVal.prim (Scalar.i 5))

/-- Claim C2, counterexample: with a WHERE condition, an ORDER BY and a
cursor, the cursor fragment is appended after the ORDER BY clause — the
emitted text is `... WHERE x = ? ORDER BY id ASC AND id > ? `, which is not
the text in which the cursor predicate is joined onto the WHERE condition
list (`... WHERE x = ? AND id > ? ORDER BY id ASC`). -/
theorem C2_counterexample :
    cursorOrderQB.Build =
      some ("SELECT a FROM t WHERE x = ? ORDER BY id ASC AND id > ? ",
        [GoVal.prim (Scalar.i 1), GoVal.prim (Scalar.i 5)],
        { cursorOrderQB with Parameters :=
            [GoVal.prim (Scalar.i 1), GoVal.prim (Scalar.i 5)] }) ∧
    ("SELECT a FROM t WHERE x = ? ORDER BY id ASC AND id > ? " : String) ≠
      "SELECT a FROM t WHERE x = ? AND id > ? ORDER BY id ASC" := by
  refine ⟨by decide, by decide⟩

/-- Claim C2 (amended): `Build` emits the cursor predicate iff the cursor
field is non-empty and the cursor value is non-nil; when emitted, the
fragment ` AND field > ? ` is appended to the end of the statement built so
far — after the ORDER BY segment when present, not directly after the WHERE
condition list — with the cursor value appended as the last parameter; when
the cursor value is nil (e.g. after `Cursor(field, nil)`), no cursor
fragment and no cursor parameter appear anywhere in the output. -/
theorem C2_amended_cursor (qb : QueryBuilder) (clauses : List (String × List GoVal))
    (h : processConditions qb.WhereConditions qb.WhereOperators = some clauses) :
    (qb.CursorField ≠ "" ∧ qb.CursorValue ≠ GoVal.vnil →
      qb.Build = some (selectText qb ++ whereText qb clauses ++ orderText qb ++
          (" AND " ++ qb.CursorField ++ " > ? ") ++ limitText qb,
        (qb.Parameters ++ whereParams clauses) ++ [qb.CursorValue],
        { qb with Parameters :=
            (qb.Parameters ++ whereParams clauses) ++ [qb.CursorValue] })) ∧
    (qb.CursorField = "" ∨ qb.CursorValue = GoVal.vnil →
      qb.Build = some (selectText qb ++ whereText qb clauses ++ orderText qb ++
          limitText qb,
        qb.Parameters ++ whereParams clauses,
        { qb with Parameters := qb.Parameters ++ whereParams clauses })) ∧
    (∀ f v, emitCursor ((qb.Cursor f v).Cursor f GoVal.vnil) = false) := by
  refine ⟨?_, ?_, ?_⟩
  · rintro ⟨h1, h2⟩
    have hc : cursorText qb = " AND " ++ qb.CursorField ++ " > ? " := by
      simp [cursorText, emitCursor, h1, h2]
    have hp : cursorParams qb = [qb.CursorValue] := by
      simp [cursorParams, emitCursor, h1, h2]
    rw [build_eq qb clauses h, hc, hp]
  · intro h12
    have he : emitCursor qb = false := by
      rcases h12 with h1 | h2
      · simp [emitCursor, h1]
      · simp [emitCursor, h2]
    have hc : cursorText qb = "" := by simp [cursorText, he]
    have hp : cursorParams qb = [] := by simp [cursorParams, he]
    rw [build_eq qb clauses h, hc, hp, string_append_empty, List.append_nil]
  · intro f v
    simp [emitCursor, QueryBuilder.Cursor]

/-- Witness for C2 at a concrete builder with cursor, WHERE and ORDER BY. -/
theorem C2_amended_witness :
    (processConditions cursorOrderQB.WhereConditions cursorOrderQB.WhereOperators =
      some [("x = ?", [GoVal.prim (Scalar.i 1)])]) ∧
    (cursorOrderQB.CursorField ≠ "" ∧ cursorOrderQB.CursorValue ≠ GoVal.vnil) ∧
    cursorOrderQB.Build =
      some ("SELECT a FROM t WHERE x = ? ORDER BY id ASC AND id > ? ",
        [GoVal.prim (Scalar.i 1), GoVal.prim (Scalar.i 5)],
        { cursorOrderQB with Parameters :=
            [GoVal.prim (Scalar.i 1), GoVal.prim (Scalar.i 5)] }) := by
  refine ⟨by decide, ⟨by decide, by decide⟩, ?_⟩
  have := (C2_amended_cursor cursorOrderQB [("x = ?", [GoVal.prim (Scalar.i 1)])]
    (by decide)).1 ⟨by decide, by decide⟩
  simpa [cursorOrderQB, NewQueryBuilder, QueryBuilder.Select, QueryBuilder.Where,
    QueryBuilder.OrderBy, QueryBuilder.Cursor, selectText, whereText, orderText,
    limitText, whereParams, joinStrings, renderOrderField] using this

theorem processCondition_allNil (opsMap : OpMap) :
    ∀ c : Cond, (∀ e ∈ c, e.2 = GoVal.vnil) → processCondition opsMap c = some []
  | [], _ => rfl
  | (f, v) :: rest, h => by
      have hv : v = GoVal.vnil := h (f, v) (by simp)
      simp [processCondition, hv,
        processCondition_allNil opsMap rest (fun e he => h e (by simp [he]))]

theorem processConditions_allNil :
    ∀ (conds : List Cond) (ops : List OpMap),
      (∀ c ∈ conds, ∀ e ∈ c, e.2 = GoVal.vnil) →
      processConditions conds ops = some []
  | [], _, _ => rfl
  | c :: cs, ops, h => by
      simp only [processConditions,
        processCondition_allNil (ops.headD []) c (h c (by simp)),
        processConditions_allNil cs ops.tail (fun c' hc' => h c' (by simp [hc'])),
        List.nil_append]

/-- Claim C10: when the condition list is non-empty but every condition's
value is nil, `Build` still emits the `WHERE ` keyword (the guard checks
only the list length) followed by zero rendered predicates, leaving a
dangling `WHERE` in the statement text, and appends no WHERE parameters. -/
theorem C10_dangling_where (qb : QueryBuilder)
    (hne : qb.WhereConditions ≠ [])
    (hnil : ∀ c ∈ qb.WhereConditions, ∀ e ∈ c, e.2 = GoVal.vnil) :
    qb.Build = some (selectText qb ++ "WHERE " ++ orderText qb ++ cursorText qb ++
        limitText qb,
      qb.Parameters ++ cursorParams qb,
      { qb with Parameters := qb.Parameters ++ cursorParams qb }) := by
  have hpc : processConditions qb.WhereConditions qb.WhereOperators = some [] :=
    processConditions_allNil _ _ hnil
  rw [build_eq qb [] hpc]
  have hl : qb.WhereConditions.length > 0 := List.length_pos.mpr hne
  have hw : whereText qb [] = "WHERE " := by
    simp only [whereText, if_pos hl, List.map_nil, joinStrings, string_append_empty]
  rw [hw]
  simp [whereParams]

/-- A builder whose only condition entry has a nil value. -/
def allNilQB : QueryBuilder :=
  ((NewQueryBuilder "t").Select ["a"]).Where [[("x", GoVal.vnil)]] []

/-- Witness for C10 at a concrete all-nil builder. -/
theorem C10_witness :
    allNilQB.WhereConditions ≠ [] ∧
    (∀ c ∈ allNilQB.WhereConditions, ∀ e ∈ c, e.2 = GoVal.vnil) ∧
    allNilQB.Build = some ("SELECT a FROM t WHERE ", [],
      { allNilQB with Parameters := [] }) := by
  refine ⟨by decide, by decide, ?_⟩
  have := C10_dangling_where allNilQB (by decide) (by decide)
  simpa [allNilQB, NewQueryBuilder, QueryBuilder.Select, QueryBuilder.Where,
    selectText, orderText, cursorText, limitText, cursorParams, emitCursor,
    joinStrings] using this

/-- Claim C3: a second `Build` on the builder returned by a first `Build`
(whose configuration fields are untouched; only `Parameters` was mutated)
yields the same statement text, but since each call appends the clause
parameters to the persistent `Parameters` slice, the second call returns
every parameter of the first call twice. -/
theorem C3_rebuild_duplicates_params (qb : QueryBuilder) (q : String)
    (ps : List GoVal) (qb' : QueryBuilder)
    (hfresh : qb.Parameters = [])
    (h : qb.Build = some (q, ps, qb')) :
    qb'.Build = some (q, ps ++ ps, { qb' with Parameters := ps ++ ps }) := by
  cases hpc : processConditions qb.WhereConditions qb.WhereOperators with
  | none => rw [build_none qb hpc] at h; cases h
  | some clauses =>
      rw [build_eq qb clauses hpc, hfresh] at h
      simp only [List.nil_append, Option.some.injEq, Prod.mk.injEq] at h
      obtain ⟨hT, hP, hB⟩ := h
      subst hT hP hB
      have hpc2 : processConditions
          ({ qb with Parameters := whereParams clauses ++ cursorParams qb } :
            QueryBuilder).WhereConditions
          ({ qb with Parameters := whereParams clauses ++ cursorParams qb } :
            QueryBuilder).WhereOperators = some clauses := hpc
      rw [build_eq _ clauses hpc2]
      refine congrArg some ?_
      have hps :
          ({ qb with Parameters := whereParams clauses ++ cursorParams qb } :
              QueryBuilder).Parameters ++ whereParams clauses ++
            cursorParams
              ({ qb with Parameters := whereParams clauses ++ cursorParams qb } :
                QueryBuilder) =
          (whereParams clauses ++ cursorParams qb) ++
            (whereParams clauses ++ cursorParams qb) := by
        show (whereParams clauses ++ cursorParams qb) ++ whereParams clauses ++
            cursorParams qb = _
        simp [List.append_assoc]
      rw [hps]
      rfl

/-- Witness for C3 at the spec's worked example. -/
theorem C3_witness :
    exampleQB.Parameters = [] ∧
    exampleQB.Build =
      some ("SELECT id, name FROM users WHERE status = ? ORDER BY id ASC LIMIT 10",
        [GoVal.prim (Scalar.s "active")],
        { exampleQB with Parameters := [GoVal.prim (Scalar.s "active")] }) ∧
    ({ exampleQB with Parameters := [GoVal.prim (Scalar.s "active")] } :
        QueryBuilder).Build =
      some ("SELECT id, name FROM users WHERE status = ? ORDER BY id ASC LIMIT 10",
        [GoVal.prim (Scalar.s "active"), GoVal.prim (Scalar.s "active")],
        { exampleQB with Parameters :=
            [GoVal.prim (Scalar.s "active"), GoVal.prim (Scalar.s "active")] }) := by
  refine ⟨rfl, by decide, ?_⟩
  have := C3_rebuild_duplicates_params exampleQB
    "SELECT id, name FROM users WHERE status = ? ORDER BY id ASC LIMIT 10"
    [GoVal.prim (Scalar.s "active")]
    { exampleQB with Parameters := [GoVal.prim (Scalar.s "active")] }
    rfl (by decide)
  simpa using this

theorem processCondition_dropNil (opsMap : OpMap) (f : String) :
    ∀ (mpre mpost : Cond),
      processCondition opsMap (mpre ++ (f, GoVal.vnil) :: mpost) =
        processCondition opsMap (mpre ++ mpost)
  | [], mpost => by simp [processCondition]
  | (g, w) :: rest, mpost => by
      simp only [List.cons_append, List.append_eq, processCondition,
        processCondition_dropNil opsMap f rest mpost]

theorem processConditions_dropNil (f : String) (mpre mpost : Cond) :
    ∀ (cpre cpost : List Cond) (ops : List OpMap),
      processConditions (cpre ++ (mpre ++ (f, GoVal.vnil) :: mpost) :: cpost) ops =
        processConditions (cpre ++ (mpre ++ mpost) :: cpost) ops
  | [], cpost, ops => by
      simp only [List.nil_append, processConditions,
        processCondition_dropNil (ops.headD []) f mpre mpost]
  | c :: cpre, cpost, ops => by
      simp only [List.cons_append, List.append_eq, processConditions,
        processConditions_dropNil f mpre mpost cpre cpost ops.tail]

/-- Claim C4: a condition entry whose value is nil is excluded entirely from
the output — the statement text and parameter list `Build` returns are the
ones of the same builder with that entry removed, and no error arises from
dropping it. -/
theorem C4_nil_condition_dropped (qb : QueryBuilder) (cpre cpost : List Cond)
    (mpre mpost : Cond) (f : String)
    (h : qb.WhereConditions = cpre ++ (mpre ++ (f, GoVal.vnil) :: mpost) :: cpost) :
    (qb.Build.map fun r => (r.1, r.2.1)) =
      (({ qb with WhereConditions := cpre ++ (mpre ++ mpost) :: cpost } :
          QueryBuilder).Build.map fun r => (r.1, r.2.1)) := by
  cases hpc : processConditions (cpre ++ (mpre ++ mpost) :: cpost)
      qb.WhereOperators with
  | none =>
      have hpc1 : processConditions qb.WhereConditions qb.WhereOperators = none := by
        rw [h, processConditions_dropNil, hpc]
      rw [build_none qb hpc1, build_none _ hpc]
  | some clauses =>
      have hpc1 : processConditions qb.WhereConditions qb.WhereOperators =
          some clauses := by
        rw [h, processConditions_dropNil, hpc]
      rw [build_eq qb clauses hpc1, build_eq _ clauses hpc]
      have hl1 : qb.WhereConditions.length > 0 := by
        rw [h]; simp
      have hl2 : (cpre ++ (mpre ++ mpost) :: cpost).length > 0 := by simp
      simp [whereText, hl1, hl2, selectText, orderText, cursorText, limitText,
        cursorParams, emitCursor]

/-- Witness for C4 at a concrete builder whose condition group holds a nil
entry and a non-nil entry. -/
theorem C4_witness :
    (((NewQueryBuilder "t").Select ["a"]).Where
        [[("x", GoVal.vnil), ("y", GoVal.prim (Scalar.i 2))]] []).WhereConditions =
      [] ++ ([] ++ ("x", GoVal.vnil) :: [("y", GoVal.prim (Scalar.i 2))]) :: [] ∧
    ((((NewQueryBuilder "t").Select ["a"]).Where
        [[("x", GoVal.vnil), ("y", GoVal.prim (Scalar.i 2))]] []).Build.map
      fun r => (r.1, r.2.1)) =
      (({ ((NewQueryBuilder "t").Select ["a"]).Where
            [[("x", GoVal.vnil), ("y", GoVal.prim (Scalar.i 2))]] [] with
          WhereConditions := [] ++ ([] ++ [("y", GoVal.prim (Scalar.i 2))]) :: [] } :
          QueryBuilder).Build.map fun r => (r.1, r.2.1)) := by
  refine ⟨rfl, ?_⟩
  exact C4_nil_condition_dropped _ [] [] [] [("y", GoVal.prim (Scalar.i 2))] "x" rfl

/-- Claim C1 (amended): on a fresh builder whose conditions are well formed
(`condsWF`: slice values for `IN`/`NOT IN`, two-element slice values for
`BETWEEN`, no stray `?` in field or operator text) and whose cursor field
has no stray `?`, `Build` succeeds; each rendered clause carries exactly as
many `?` placeholders as parameters appended for it, the returned parameter
list is the concatenation of the per-clause parameters in clause order
followed by the cursor parameter, and the total number of placeholders in
the WHERE clause plus cursor predicate equals the number of parameters. -/
theorem C1_amended_alignment (qb : QueryBuilder)
    (hfresh : qb.Parameters = [])
    (hwf : condsWF qb.WhereConditions qb.WhereOperators = true)
    (hcf : countQ qb.CursorField = 0) :
    ∃ clauses,
      processConditions qb.WhereConditions qb.WhereOperators = some clauses ∧
      qb.Build = some (selectText qb ++ whereText qb clauses ++ orderText qb ++
          cursorText qb ++ limitText qb,
        whereParams clauses ++ cursorParams qb,
        { qb with Parameters := whereParams clauses ++ cursorParams qb }) ∧
      (∀ x ∈ clauses, countQ x.1 = x.2.length) ∧
      countQ (whereText qb clauses ++ cursorText qb) =
        (whereParams clauses ++ cursorParams qb).length := by
  obtain ⟨clauses, hpc, hal⟩ :=
    processConditions_aligned qb.WhereConditions qb.WhereOperators hwf
  refine ⟨clauses, hpc, ?_, hal, ?_⟩
  · rw [build_eq qb clauses hpc, hfresh]
    rfl
  · rw [countQ_append, List.length_append]
    have h1 : countQ (whereText qb clauses) = (whereParams clauses).length := by
      unfold whereText
      by_cases hc : qb.WhereConditions.length > 0
      · rw [if_pos hc, countQ_append, whereParams_length_of_aligned clauses hal]
        have hW : countQ "WHERE " = 0 := by decide
        omega
      · rw [if_neg hc]
        have hnil : qb.WhereConditions = [] := by
          cases hl : qb.WhereConditions with
          | nil => rfl
          | cons a as => rw [hl] at hc; simp at hc
        rw [hnil] at hpc
        have hcl : clauses = [] := by
          have := hpc
          simp only [processConditions, Option.some.injEq] at this
          exact this.symm
        rw [hcl]
        decide
    have h2 : countQ (cursorText qb) = (cursorParams qb).length := by
      unfold cursorText cursorParams
      by_cases he : emitCursor qb = true
      · rw [if_pos he, if_pos he, countQ_append, countQ_append]
        have hA : countQ " AND " = 0 := by decide
        have hG : countQ " > ? " = 1 := by decide
        simp [hA, hG, hcf]
      · rw [if_neg he, if_neg he]
        decide
    omega

/-- A fresh builder with an equality, a `BETWEEN` and an `IN` condition plus
a cursor, used to witness the alignment property. -/
def alignedQB : QueryBuilder :=
  (((NewQueryBuilder "t").Select ["a"]).Where
    [[("status", GoVal.prim (Scalar.s "active"))],
     [("age", GoVal.slice [Scalar.i 18, Scalar.i 65])],
     [("id", GoVal.slice [Scalar.i 1, Scalar.i 2, Scalar.i 3])]]
    [[], [("age", "BETWEEN")], [("id", "IN")]]).Cursor "id" (GoVal.prim (Scalar.i 7))

/-- Witness for C1 at a concrete well-formed builder. -/
theorem C1_amended_witness :
    alignedQB.Parameters = [] ∧
    condsWF alignedQB.WhereConditions alignedQB.WhereOperators = true ∧
    countQ alignedQB.CursorField = 0 ∧
    (∃ clauses,
      processConditions alignedQB.WhereConditions alignedQB.WhereOperators =
        some clauses ∧
      alignedQB.Build = some (selectText alignedQB ++ whereText alignedQB clauses ++
          orderText alignedQB ++ cursorText alignedQB ++ limitText alignedQB,
        whereParams clauses ++ cursorParams alignedQB,
        { alignedQB with Parameters := whereParams clauses ++ cursorParams alignedQB }) ∧
      (∀ x ∈ clauses, countQ x.1 = x.2.length) ∧
      countQ (whereText alignedQB clauses ++ cursorText alignedQB) =
        (whereParams clauses ++ cursorParams alignedQB).length) :=
  ⟨rfl, by decide, by decide, C1_amended_alignment alignedQB rfl (by decide) (by decide)⟩

/-- Claim C9: `GetOrCreate` executes the builder's SELECT; when the result
set contains at least one row it returns that first row scanned into a
field-name-to-value map and executes no INSERT; when the result set is
empty it executes the INSERT built from `createData` by `BuildInsertQuery`
and returns the `createData` map itself, unchanged. -/
theorem C9_get_or_create (qb : QueryBuilder) (res : DBResult)
    (createData : List (String × GoVal)) :
    (∀ r rest, res.rows = r :: rest →
      qb.GetOrCreate res createData =
        GetOrCreateResult.found (rowToMap res.columns r)) ∧
    (res.rows = [] →
      qb.GetOrCreate res createData =
        GetOrCreateResult.created createData
          (qb.BuildInsertQuery createData).1 (qb.BuildInsertQuery createData).2) := by
  constructor
  · intro r rest hr
    simp [QueryBuilder.GetOrCreate, hr]
  · intro hr
    simp [QueryBuilder.GetOrCreate, hr]

/-- Witness for C9 on an empty result set and a two-column create map. -/
theorem C9_witness :
    (({ columns := ["id", "name"], rows := [] } : DBResult).rows = []) ∧
    (NewQueryBuilder "users").GetOrCreate { columns := ["id", "name"], rows := [] }
        [("id", GoVal.prim (Scalar.i 1)), ("name", GoVal.prim (Scalar.s "bob"))] =
      GetOrCreateResult.created
        [("id", GoVal.prim (Scalar.i 1)), ("name", GoVal.prim (Scalar.s "bob"))]
        "INSERT INTO users (id, name) VALUES (?, ?)"
        [GoVal.prim (Scalar.i 1), GoVal.prim (Scalar.s "bob")] := by
  refine ⟨rfl, ?_⟩
  have := (C9_get_or_create (NewQueryBuilder "users")
    { columns := ["id", "name"], rows := [] }
    [("id", GoVal.prim (Scalar.i 1)), ("name", GoVal.prim (Scalar.s "bob"))]).2 rfl
  simpa [QueryBuilder.BuildInsertQuery, NewQueryBuilder, joinStrings] using this

end BarqyOrm
